import Mathlib

/-!
Verification development for the cheapodb repository
(AWS Glue / Athena / S3 / Firehose convenience layer).

Each section shallowly embeds one piece of the Python source:
pure control flow becomes Lean functions, provider (AWS) calls become
oracle parameters or scripted response lists, and exceptions become
`Except` / explicit outcome constructors.
-/

namespace CheapoDB

/-! ## Stream._chunks and Stream.from_records (src/cheapodb/stream.py)

`_chunks(iterable, size)` draws `first` from the iterator and yields
`chain([first], islice(iterator, size - 1))`; the consumer
(`from_records`) materialises each chunk before the next is produced,
so on a finite sequence this is eager chunking: the first element
followed by the next `size - 1`, then recurse on the remainder. -/

def chunks {α : Type} : List α → Nat → List (List α)
  | [], _ => []
  | first :: rest, size =>
      (first :: rest.take (size - 1)) :: chunks (rest.drop (size - 1)) size
termination_by l _ => l.length
decreasing_by simp [List.length_drop]; omega

/-- `from_records(records, threads)` issues one `put_record_batch` call per
chunk of 500, whose `Records` field holds the chunk's records in order,
each serialised (`json.dumps(x).encode()` is abstracted as `encode`). -/
def from_recordsCalls {α β : Type} (encode : α → β) (records : List α) : List (List β) :=
  (chunks records 500).map (fun c => c.map encode)

theorem chunks_flatten {α : Type} (l : List α) (size : Nat) :
    (chunks l size).flatten = l := by
  induction l, size using chunks.induct with
  | case1 size => simp [chunks]
  | case2 first rest size ih =>
      simp [chunks, List.flatten, ih, List.take_append_drop]

theorem chunks_length {α : Type} (l : List α) (size : Nat) :
    1 ≤ size → (chunks l size).length = (l.length + size - 1) / size := by
  induction l, size using chunks.induct with
  | case1 size =>
      intro h
      simp only [chunks, List.length_nil]
      rw [Nat.div_eq_of_lt (show 0 + size - 1 < size by omega)]
  | case2 first rest size ih =>
      intro h
      simp only [chunks, List.length_cons]
      rw [ih h, List.length_drop]
      have h2 : rest.length + 1 + size - 1 = rest.length + size := by omega
      rw [h2, Nat.add_div_right _ (by omega : 0 < size)]
      rcases le_or_lt (size - 1) rest.length with hle | hlt
      · have h1 : rest.length - (size - 1) + size - 1 = rest.length := by omega
        rw [h1]
      · have h1 : rest.length - (size - 1) + size - 1 = size - 1 := by omega
        rw [h1, Nat.div_eq_of_lt (by omega), Nat.div_eq_of_lt (by omega)]

theorem chunks_mem_length {α : Type} (l : List α) (size : Nat) :
    1 ≤ size → ∀ c ∈ chunks l size, c.length ≤ size := by
  induction l, size using chunks.induct with
  | case1 size => simp [chunks]
  | case2 first rest size ih =>
      intro h c hc
      simp only [chunks, List.mem_cons] at hc
      rcases hc with hc | hc
      · subst hc
        simp only [List.length_cons, List.length_take]
        omega
      · exact ih h c hc

/-! ## Stream polling loop (src/cheapodb/stream.py, lines 51-61)

After `create_delivery_stream`, the loop repeatedly evaluates
`self.exists` (a describe call; `ResourceNotFoundException` becomes
`None`).  We script the successive probe results as a list of
`Option String` (the observed `DeliveryStreamStatus`, or `none` for a
not-found probe).  The loop:
  - `status` truthy and `ACTIVE`  -> break (return);
  - `status` truthy and `CREATING` -> `time.sleep(10)` and poll again;
  - anything else (another status, or `None`) -> raise immediately.
`pollLoop` returns the branch taken, the number of describe polls
issued, and the list of sleep durations (each 10 seconds). -/

inductive PollStatus where
  | completed
  | fatalStatus
  | scriptEnd
deriving DecidableEq

def pollLoop : List (Option String) → PollStatus × Nat × List Nat
  | [] => (.scriptEnd, 0, [])
  | some st :: rest =>
      if st = "ACTIVE" then (.completed, 1, [])
      else if st = "CREATING" then
        match pollLoop rest with
        | (o, polls, sleeps) => (o, polls + 1, 10 :: sleeps)
      else (.fatalStatus, 1, [])
  | none :: _ => (.fatalStatus, 1, [])

/-! ## Stream.exists (src/cheapodb/stream.py, lines 72-79)

The probe issues a describe call; a `ResourceNotFoundException` is
converted to `None`, a successful response is returned, and any other
exception propagates.  The provider outcome is an oracle value. -/

inductive DescribeOutcome where
  | found (desc : String)
  | notFound
  | err (e : String)

def streamExists : DescribeOutcome → Except String (Option String)
  | .found d => .ok (some d)
  | .notFound => .ok none
  | .err e => .error e

/-! ## Stream.initialize, creation path (src/cheapodb/stream.py, lines 24-63)

State-level model of one successful `initialize` call against a
provider registry mapping stream names to statuses: if the existence
probe (registry lookup) finds the stream, return at once without any
create call; otherwise issue one `create_delivery_stream` call, after
which the poll loop runs until the stream is ACTIVE (the provider is
assumed to complete creation, so the stream is registered ACTIVE). -/

structure FirehoseState where
  streams : List (String × String)
  createCalls : Nat
deriving DecidableEq

def initStream (st : FirehoseState) (name : String) : FirehoseState :=
  match st.streams.lookup name with
  | some _ => st
  | none => { streams := (name, "ACTIVE") :: st.streams, createCalls := st.createCalls + 1 }

/-! ## backoff wrapper on Stream.initialize (src/cheapodb/stream.py, lines 21-23)

`@backoff.on_exception(backoff.expo, Exception, max_tries=8)`: the
decorated call is attempted up to 8 times in total; any exception
triggers a re-attempt after an exponential backoff sleep, and the
exception of the final attempt is surfaced unmodified.  `attempts k`
is the outcome of the k-th attempt of the wrapped body. -/

def backoffRetry {ε α : Type} (attempts : Nat → Except ε α) : Nat → Nat → Except ε α
  | i, 0 => attempts i
  | i, 1 => attempts i
  | i, n + 2 =>
      match attempts i with
      | .ok a => .ok a
      | .error _ => backoffRetry attempts (i + 1) (n + 1)

def initWithBackoff {ε α : Type} (attempts : Nat → Except ε α) : Except ε α :=
  backoffRetry attempts 0 8

/-! ## Stream.from_records as remote calls (src/cheapodb/stream.py, lines 87-100)

Each chunk becomes one `put_record_batch` call; a failing call
propagates out of the `Parallel` dispatch with no retry.  `runBatches`
returns the overall outcome and the number of batch-put calls issued
(submission order; the first failing chunk stops the count). -/

def runBatches {α ε : Type} (put : List α → Except ε Unit) : List (List α) → Except ε Unit × Nat
  | [] => (.ok (), 0)
  | c :: cs =>
      match put c with
      | .error e => (.error e, 1)
      | .ok _ =>
          match runBatches put cs with
          | (r, n) => (r, n + 1)

def from_recordsRun {α ε : Type} (put : List α → Except ε Unit) (records : List α) :
    Except ε Unit × Nat :=
  runBatches put (chunks records 500)

/-- C1: `from_records` splits any finite sequence of N records into exactly
ceil(N/500) chunks of at most 500 records each; each chunk keeps the relative
order of its members and their concatenation in submission order is the source
sequence; one batch-put call is issued per chunk, carrying the chunk's encoded
records. -/
theorem from_records_chunk_spec {α β : Type} (encode : α → β) (records : List α) :
    (chunks records 500).length = (records.length + 499) / 500
    ∧ (∀ c ∈ chunks records 500, c.length ≤ 500)
    ∧ (chunks records 500).flatten = records
    ∧ from_recordsCalls encode records = (chunks records 500).map (fun c => c.map encode)
    ∧ (from_recordsCalls encode records).length = (chunks records 500).length := by
  refine ⟨?_, ?_, ?_, rfl, ?_⟩
  · have h := chunks_length records 500 (by omega)
    simpa using h
  · exact chunks_mem_length records 500 (by omega)
  · exact chunks_flatten records 500
  · simp [from_recordsCalls]

/-- Witness for C1: instantiation at a concrete record list, the chunk
membership hypothesis discharged concretely. -/
theorem from_records_chunk_spec_witness :
    ([0, 1, 2] : List Nat).length ≤ 500
    ∧ (chunks ([0, 1, 2] : List Nat) 500).flatten = [0, 1, 2] := by
  have h := from_records_chunk_spec (fun n : Nat => n) [0, 1, 2]
  exact ⟨h.2.1 [0, 1, 2] (by simp [chunks]), h.2.2.1⟩

/-- C2: after the create request, a single invocation of `initialize`
(ignoring the outer retry wrapper) polls the describe endpoint in a loop:
ACTIVE returns; CREATING sleeps 10 seconds and polls again; the first
observation of any other status raises immediately (one poll, no further
polling, no sleep).  For a provider reporting CREATING twice then ACTIVE,
it returns after exactly 2 sleep intervals. -/
theorem stream_poll_spec (rest : List (Option String)) (st : String)
    (ha : st ≠ "ACTIVE") (hc : st ≠ "CREATING") :
    pollLoop (some "ACTIVE" :: rest) = (.completed, 1, [])
    ∧ pollLoop (some "CREATING" :: rest)
        = ((pollLoop rest).1, (pollLoop rest).2.1 + 1, 10 :: (pollLoop rest).2.2)
    ∧ pollLoop (some st :: rest) = (.fatalStatus, 1, [])
    ∧ pollLoop [some "CREATING", some "CREATING", some "ACTIVE"] = (.completed, 3, [10, 10]) := by
  exact ⟨by simp [pollLoop], by simp [pollLoop], by simp [pollLoop, ha, hc], by simp [pollLoop]⟩

/-- Witness for C2 at `rest = []` and the non-ACTIVE, non-CREATING status
`DELETING`. -/
theorem stream_poll_spec_witness :
    pollLoop [some "DELETING"] = (.fatalStatus, 1, []) :=
  (stream_poll_spec [] "DELETING" (by decide) (by decide)).2.2.1

/-- C10 (implicit): inside the post-create polling loop, a probe that finds
the stream absent (describe raised the provider not-found exception, which
`exists` converts to `None`) takes the fatal branch: the loop raises the
"status was not one of ACTIVE or CREATING" exception at once, with no
further polling and no sleep, rather than treating absence as still
creating or as success. -/
theorem poll_absent_fatal (rest : List (Option String)) :
    streamExists .notFound = .ok none
    ∧ pollLoop (none :: rest) = (.fatalStatus, 1, [])
    ∧ PollStatus.fatalStatus ≠ PollStatus.completed := by
  exact ⟨rfl, by simp [pollLoop], by decide⟩

/-- Witness for C10 at the empty remaining script. -/
theorem poll_absent_fatal_witness :
    pollLoop [none] = (.fatalStatus, 1, []) :=
  (poll_absent_fatal []).2.1

/-- C4: `initialize` is idempotent with respect to stream creation: when the
existence probe reports the stream present, the call returns at once as a
no-op, so two calls with the same name issue exactly one create call; the
probe treats a provider not-found response as absence while any other
exception propagates. -/
theorem init_idempotent_spec (st : FirehoseState) (name : String)
    (h : st.streams.lookup name = none) :
    initStream (initStream st name) name = initStream st name
    ∧ (initStream st name).createCalls = st.createCalls + 1
    ∧ (initStream (initStream st name) name).createCalls = st.createCalls + 1
    ∧ (∀ d, streamExists (.found d) = .ok (some d))
    ∧ streamExists .notFound = .ok none
    ∧ (∀ e, streamExists (.err e) = .error e) := by
  refine ⟨?_, ?_, ?_, fun d => rfl, rfl, fun e => rfl⟩ <;>
    simp [initStream, h, List.lookup]

/-- Witness for C4 at the empty provider registry and stream name `s`. -/
theorem init_idempotent_spec_witness :
    initStream (initStream ⟨[], 0⟩ "s") "s" = initStream ⟨[], 0⟩ "s"
    ∧ (initStream (initStream ⟨[], 0⟩ "s") "s").createCalls = 1 := by
  have h := init_idempotent_spec ⟨[], 0⟩ "s" rfl
  exact ⟨h.1, h.2.2.1⟩

/-- C5: any exception inside `initialize` re-attempts the whole call under
the exponential-backoff wrapper, capped at 8 total attempts, after which the
final attempt's exception is surfaced unmodified; a later attempt that
succeeds returns its value; `from_records` has no retry wrapper: a failing
batch put propagates after a single put call. -/
theorem init_retry_spec {ε α : Type} (attempts : Nat → Except ε α) (e : Nat → ε)
    (h8 : ∀ k, k < 8 → attempts k = .error (e k))
    (attempts2 : Nat → Except ε α) (v : α) (e0 : ε)
    (h0 : attempts2 0 = .error e0) (h1 : attempts2 1 = .ok v)
    (put : List Nat → Except ε Unit) (hput : ∀ c, put c = .error e0)
    (records : List Nat) (hr : records ≠ []) :
    initWithBackoff attempts = .error (e 7)
    ∧ initWithBackoff attempts2 = .ok v
    ∧ from_recordsRun put records = (.error e0, 1) := by
  refine ⟨?_, ?_, ?_⟩
  · simp only [initWithBackoff, backoffRetry,
      h8 0 (by omega), h8 1 (by omega), h8 2 (by omega), h8 3 (by omega),
      h8 4 (by omega), h8 5 (by omega), h8 6 (by omega), h8 7 (by omega)]
  · simp only [initWithBackoff, backoffRetry, h0, h1]
  · match records, hr with
    | a :: rest, _ =>
        simp only [from_recordsRun, chunks, runBatches, hput]

/-- Witness for C5: an always-failing body surfaces the 8th attempt's error;
a body failing once then succeeding returns the success; a single-record
`from_records` with a failing put makes exactly one put call. -/
theorem init_retry_spec_witness :
    initWithBackoff (fun k => (Except.error k : Except Nat Nat)) = .error 7
    ∧ initWithBackoff
        (fun k => if k = 0 then (Except.error 0 : Except Nat Nat) else .ok 5) = .ok 5
    ∧ from_recordsRun (fun _ => (Except.error 0 : Except Nat Unit)) [1] = (.error 0, 1) :=
  init_retry_spec (fun k => Except.error k) (fun k => k) (fun _ _ => rfl)
    (fun k => if k = 0 then Except.error 0 else .ok 5) 5 0 rfl rfl
    (fun _ => Except.error 0) (fun _ => rfl) [1] (by simp)

/-! ## Database.create_crawler (src/cheapodb/database.py, lines 123-164)

The try block builds the crawler payload (Role, DatabaseName,
Description, S3 target path, TablePrefix, SchemaChangePolicy, optional
Schedule), issues `create_crawler`, and returns
`get_crawler(Name=name)['Crawler']['Name']`; an
`AlreadyExistsException` is caught and converted into the same
`get_crawler` lookup, whose name is returned with the stored settings
untouched.  The Glue registry is modelled as an association list from
crawler name to its stored settings, plus a successful-create counter;
`get_crawler` returns the registered name. -/

structure CrawlerSettings where
  role : String
  dbName : String
  s3Path : String
  tablePfx : Option String
  schedule : Option String
  updateBehavior : String
  deleteBehavior : String
deriving DecidableEq

structure GlueState where
  crawlers : List (String × CrawlerSettings)
  createCalls : Nat
deriving DecidableEq

def create_crawler (st : GlueState) (name : String) (s : CrawlerSettings) :
    GlueState × String :=
  match st.crawlers.lookup name with
  | some _ => (st, name)
  | none => ({ crawlers := (name, s) :: st.crawlers, createCalls := st.createCalls + 1 }, name)

/-- C6: `create_crawler` is idempotent on the crawler name: an existing name
makes the provider's already-exists outcome a lookup of the existing crawler,
whose name is returned and whose stored settings are not modified; two calls
with the same name return the same name while issuing exactly one successful
create call. -/
theorem create_crawler_idempotent (st : GlueState) (name : String)
    (s s2 : CrawlerSettings) (h : st.crawlers.lookup name = none) :
    (create_crawler st name s).2 = name
    ∧ (create_crawler (create_crawler st name s).1 name s2).2 = name
    ∧ (create_crawler (create_crawler st name s).1 name s2).1 = (create_crawler st name s).1
    ∧ (create_crawler st name s).1.createCalls = st.createCalls + 1
    ∧ (create_crawler (create_crawler st name s).1 name s2).1.createCalls
        = st.createCalls + 1
    ∧ (create_crawler (create_crawler st name s).1 name s2).1.crawlers.lookup name
        = some s := by
  refine ⟨?_, ?_, ?_, ?_, ?_, ?_⟩ <;> simp [create_crawler, h, List.lookup]

/-- Witness for C6: fresh registry, crawler name `raw`, two different
settings values. -/
theorem create_crawler_idempotent_witness :
    (create_crawler (⟨[], 0⟩ : GlueState) "raw"
        ⟨"arn", "db", "db/raw/", none, none, "UPDATE_IN_DATABASE", "DELETE_FROM_DATABASE"⟩).2
      = "raw"
    ∧ (create_crawler
        (create_crawler (⟨[], 0⟩ : GlueState) "raw"
          ⟨"arn", "db", "db/raw/", none, none, "UPDATE_IN_DATABASE", "DELETE_FROM_DATABASE"⟩).1
        "raw"
        ⟨"arn2", "db", "db/raw/", none, none, "LOG", "LOG"⟩).1.createCalls = 1 := by
  have h := create_crawler_idempotent ⟨[], 0⟩ "raw"
    ⟨"arn", "db", "db/raw/", none, none, "UPDATE_IN_DATABASE", "DELETE_FROM_DATABASE"⟩
    ⟨"arn2", "db", "db/raw/", none, none, "LOG", "LOG"⟩ rfl
  exact ⟨h.1, h.2.2.2.2.1⟩

/-! ## Database.update_tables (src/cheapodb/database.py, lines 166-202)

Starts the crawler; if `wait` is falsy, returns immediately.  Otherwise it
polls `get_crawler` in a loop: state RUNNING or STOPPING sleeps `wait`
seconds and polls again; any other state reads
`response['Crawler']['LastCrawl']['Status']`, logs it and breaks without
raising.  Successive `get_crawler` responses are scripted as a list of
`CrawlerDesc`; the result carries the number of polls and the sleeps. -/

structure CrawlerDesc where
  state : String
  lastCrawlStatus : String
  crawlElapsedTime : Nat
deriving DecidableEq

inductive UpdateOutcome where
  | immediate
  | finished (polls : Nat) (status : String)
  | scriptEnd
deriving DecidableEq

def bumpPoll : UpdateOutcome → UpdateOutcome
  | .finished p s => .finished (p + 1) s
  | o => o

def updLoop (wait : Nat) : List CrawlerDesc → UpdateOutcome × List Nat
  | [] => (.scriptEnd, [])
  | d :: rest =>
      if d.state = "RUNNING" then
        match updLoop wait rest with
        | (o, sleeps) => (bumpPoll o, wait :: sleeps)
      else if d.state = "STOPPING" then
        match updLoop wait rest with
        | (o, sleeps) => (bumpPoll o, wait :: sleeps)
      else (.finished 1 d.lastCrawlStatus, [])

def update_tables (wait : Nat) (script : List CrawlerDesc) : UpdateOutcome × List Nat :=
  if wait ≠ 0 then updLoop wait script else (.immediate, [])

/-- C7: `update_tables` starts the crawl and returns immediately when `wait`
is falsy; with a positive `wait` it polls on that interval, continuing on
RUNNING or STOPPING, and on the first other state reads the last-run terminal
status, logs it and returns it without raising — including a FAILED terminal
status. -/
theorem update_tables_spec (w : Nat) (hw : w ≠ 0) (script rest : List CrawlerDesc)
    (dR dS dT : CrawlerDesc)
    (hR : dR.state = "RUNNING") (hS : dS.state = "STOPPING")
    (hT1 : dT.state ≠ "RUNNING") (hT2 : dT.state ≠ "STOPPING") :
    update_tables 0 script = (.immediate, [])
    ∧ update_tables w script = updLoop w script
    ∧ updLoop w (dR :: rest)
        = (bumpPoll (updLoop w rest).1, w :: (updLoop w rest).2)
    ∧ updLoop w (dS :: rest)
        = (bumpPoll (updLoop w rest).1, w :: (updLoop w rest).2)
    ∧ updLoop w (dT :: rest) = (.finished 1 dT.lastCrawlStatus, [])
    ∧ update_tables w [⟨"READY", "FAILED", 0⟩] = (.finished 1 "FAILED", []) := by
  refine ⟨by simp [update_tables], by simp [update_tables, hw], ?_, ?_, ?_, ?_⟩
  · simp [updLoop, hR]
  · simp [updLoop, hS]
  · simp [updLoop, hT1, hT2]
  · simp [update_tables, hw, updLoop]

/-- Witness for C7: interval 60, a RUNNING poll followed by a READY poll
with FAILED last-run status. -/
theorem update_tables_spec_witness :
    update_tables 60 [⟨"RUNNING", "", 0⟩, ⟨"READY", "FAILED", 7⟩]
      = (.finished 2 "FAILED", [60])
    ∧ update_tables 0 [⟨"RUNNING", "", 0⟩] = (.immediate, []) := by
  have h := update_tables_spec 60 (by decide) [⟨"RUNNING", "", 0⟩] [⟨"READY", "FAILED", 7⟩]
    ⟨"RUNNING", "", 0⟩ ⟨"STOPPING", "", 0⟩ ⟨"READY", "FAILED", 7⟩
    rfl rfl (by decide) (by decide)
  refine ⟨?_, h.1⟩
  have h2 := update_tables_spec 60 (by decide) [] [] ⟨"RUNNING", "", 0⟩ ⟨"STOPPING", "", 0⟩
    ⟨"READY", "FAILED", 7⟩ rfl rfl (by decide) (by decide)
  calc update_tables 60 [⟨"RUNNING", "", 0⟩, ⟨"READY", "FAILED", 7⟩]
      = updLoop 60 [⟨"RUNNING", "", 0⟩, ⟨"READY", "FAILED", 7⟩] := by
        simp [update_tables]
    _ = (bumpPoll (updLoop 60 [⟨"READY", "FAILED", 7⟩]).1,
          60 :: (updLoop 60 [⟨"READY", "FAILED", 7⟩]).2) := h.2.2.1
    _ = (.finished 2 "FAILED", [60]) := by
        rw [h2.2.2.2.2.1]
        rfl

/-! ## create_cheapodb_role (src/cheapodb/utils.py, lines 22-116)

The try block issues `create_role`, `attach_role_policy` and
`put_role_policy`; an `EntityAlreadyExistsException` from the block is
caught and re-raised as a `CheapoDBException` with a fixed message; any
other exception propagates; on success the created role ARN is
returned.  The identity-service outcome for the block is an oracle. -/

inductive IamOutcome where
  | ok (arn : String)
  | entityAlreadyExists
  | otherError (e : String)

inductive RoleError where
  | cheapoDBException (msg : String)
  | provider (e : String)
deriving DecidableEq

def create_cheapodb_role (bucket : String) (outcome : IamOutcome) :
    Except RoleError String :=
  match outcome with
  | .ok arn => .ok arn
  | .entityAlreadyExists =>
      .error (.cheapoDBException
        ("Role already exists for database: CheapoDBRole-" ++ bucket
          ++ ". Provide the role ARN as iam_role_arn."))
  | .otherError e => .error (.provider e)

/-- C8: when the identity service reports the role already exists,
`create_cheapodb_role` fails with the domain-specific `CheapoDBException`
telling the caller to supply the existing role ARN as `iam_role_arn`; it
never returns a pre-existing role silently. -/
theorem create_role_already_exists (bucket : String) :
    create_cheapodb_role bucket .entityAlreadyExists
      = .error (.cheapoDBException
          ("Role already exists for database: CheapoDBRole-" ++ bucket
            ++ ". Provide the role ARN as iam_role_arn."))
    ∧ (∀ arn, create_cheapodb_role bucket .entityAlreadyExists ≠ .ok arn)
    ∧ (∀ arn, create_cheapodb_role bucket (.ok arn) = .ok arn) := by
  exact ⟨rfl, fun arn h => by simp [create_cheapodb_role] at h, fun arn => rfl⟩

/-- Witness for C8 at the bucket name `mydb` and role ARN `a`. -/
theorem create_role_already_exists_witness :
    create_cheapodb_role "mydb" .entityAlreadyExists
      = .error (.cheapoDBException
          ("Role already exists for database: CheapoDBRole-" ++ "mydb"
            ++ ". Provide the role ARN as iam_role_arn."))
    ∧ create_cheapodb_role "mydb" (.ok "a") = .ok "a" := by
  have h := create_role_already_exists "mydb"
  exact ⟨h.1, h.2.2 "a"⟩

/-! ## Table.get_versions (src/cheapodb/table.py, lines 49-71)

```
versions = list()
while True:
    payload = dict(DatabaseName=..., TableName=..., MaxResults=100)
    response = self.db.glue.get_table_versions(**payload)
    if not response['TableVersions']:
        break
    if response['NextToken']:
        payload['NextToken'] = response['NextToken']
    versions += response['TableVersions']
return versions
```

`payload` is rebuilt at the top of every iteration, so the `NextToken`
stored into it on the previous iteration is discarded: every request is
sent without a continuation token.  `response['NextToken']` is an
unconditional dict index: a response lacking the field raises
`KeyError` before the page is accumulated.  The provider is an oracle
from the token sent (always `none` here) to a page; version entries are
abstracted as `Nat`.  The loop is run on bounded fuel; `fuelOut` marks
an iteration budget exhausted with the loop still running.  Each
result carries the list of tokens actually sent with the requests. -/

structure VersionsPage where
  tableVersions : List Nat
  nextToken : Option String

inductive GVResult where
  | ok (versions : List Nat) (requests : List (Option String))
  | keyError (requests : List (Option String))
  | fuelOut (versions : List Nat) (requests : List (Option String))
deriving DecidableEq

def get_versionsLoop (provider : Option String → VersionsPage) :
    Nat → List Nat → GVResult
  | 0, acc => .fuelOut acc []
  | fuel + 1, acc =>
      let sent : Option String := none
      let response := provider sent
      if response.tableVersions = [] then .ok acc [sent]
      else
        match response.nextToken with
        | none => .keyError [sent]
        | some _ =>
            match get_versionsLoop provider fuel (acc ++ response.tableVersions) with
            | .ok v reqs => .ok v (sent :: reqs)
            | .keyError reqs => .keyError (sent :: reqs)
            | .fuelOut v reqs => .fuelOut v (sent :: reqs)

def get_versions (provider : Option String → VersionsPage) (fuel : Nat) : GVResult :=
  get_versionsLoop provider fuel []

/-- C3 (code bug): evaluated on a catalog whose first page holds one version
entry and a continuation token, `get_versions` re-sends the token-less first
request forever (3 fuel: the same page accumulated 3 times, every request
sent without a token) because the payload dict is rebuilt each iteration
and the recorded `NextToken` is discarded; on a response without the
`NextToken` field it raises `KeyError` instead of stopping; only an empty
page terminates the loop. -/
theorem get_versions_pagination_bug :
    get_versions (fun _ => ⟨[7], some "page2"⟩) 3 = .fuelOut [7, 7, 7] [none, none, none]
    ∧ get_versions (fun _ => ⟨[7], none⟩) 3 = .keyError [none]
    ∧ get_versions (fun _ => ⟨[], none⟩) 3 = .ok [] [none] := by
  refine ⟨?_, ?_, ?_⟩ <;> rfl

/-! ## Table.from_dataframe (src/cheapodb/table.py, lines 178-199)

```
while True:
    try:
        df.to_parquet(path=target, engine='fastparquet',
                      dtype=lambda x: dtype if dtype else None, **kwargs)
        break
    except ValueError as e:
        dtype = dict()
        type_errors = re.findall(pattern=r'...', string=str(e))
        dtype.update({x[0].strip(): x[2] for x in type_errors})
```

The writer is scripted as a list of per-attempt outcomes (`none` =
success, `some msg` = ValueError with message `msg`).  The `re.findall`
call with the fixed pattern is the external `re` library, abstracted as
the oracle `findall` returning the three capture groups of each match;
the dict comprehension over its output (strip the column group, map it
to the type group, later duplicates overwriting) is `parseDtype`.  The
trace records, for each write attempt, the state of the local `dtype`
variable: unbound (`none`) on the first attempt, the parsed dict from
the latest error afterwards. -/

def dictUpdate (d : List (String × String)) (k v : String) : List (String × String) :=
  if (d.lookup k).isSome then
    d.map (fun p => if p.1 = k then (k, v) else p)
  else d ++ [(k, v)]

def parseDtype (findall : String → List (String × String × String)) (e : String) :
    List (String × String) :=
  (findall e).foldl (fun d x => dictUpdate d x.1.trim x.2.2) []

inductive FDResult where
  | done (dtypeTrace : List (Option (List (String × String))))
  | fuelOut (dtypeTrace : List (Option (List (String × String))))
deriving DecidableEq

def fromDfLoop (findall : String → List (String × String × String)) :
    List (Option String) → Option (List (String × String)) → FDResult
  | [], _ => .fuelOut []
  | none :: _, d => .done [d]
  | some e :: rest, d =>
      match fromDfLoop findall rest (some (parseDtype findall e)) with
      | .done tr => .done (d :: tr)
      | .fuelOut tr => .fuelOut (d :: tr)

def from_dataframe (findall : String → List (String × String × String))
    (script : List (Option String)) : FDResult :=
  fromDfLoop findall script none

/-- Number of write attempts a `from_dataframe` run performed. -/
def writeAttempts : FDResult → Nat
  | .done tr => tr.length
  | .fuelOut tr => tr.length

/-- C9 counterexample: with a writer that raises a ValueError on the first
two attempts and succeeds on the third, `from_dataframe` performs 3 write
attempts — it retries after the second ValueError as well, so the write is
not retried only once (which would cap the attempts at 2). -/
theorem from_dataframe_retry_counterexample :
    from_dataframe (fun _ => []) [some "err1", some "err2", none]
      = .done [none, some [], some []]
    ∧ writeAttempts (from_dataframe (fun _ => []) [some "err1", some "err2", none]) = 3
    ∧ 2 < writeAttempts (from_dataframe (fun _ => []) [some "err1", some "err2", none]) := by
  exact ⟨rfl, rfl, by decide⟩

/-- C9 amended: a first write attempt that succeeds returns with no coercion
(the `dtype` local is still unbound); when the writer raises a
type-mismatch ValueError, the message is parsed for column/type pairs (the
fixed-regex `re.findall` output stripped and folded into a dict) and the
write is retried with that explicit coercion; the loop retries after every
subsequent ValueError, recomputing the coercion from the newest message,
until a write succeeds. -/
theorem from_dataframe_retry_spec (findall : String → List (String × String × String))
    (e1 e2 : String) (rest : List (Option String)) :
    from_dataframe findall (none :: rest) = .done [none]
    ∧ from_dataframe findall (some e1 :: none :: rest)
        = .done [none, some (parseDtype findall e1)]
    ∧ from_dataframe findall (some e1 :: some e2 :: none :: rest)
        = .done [none, some (parseDtype findall e1), some (parseDtype findall e2)] := by
  exact ⟨rfl, rfl, rfl⟩

end CheapoDB
